import Mathlib

/-!
Shallow embedding of the sound-effect module
(packages/frontend/src/scripts/sound.ts) of the repository.

The module loads, caches and plays short audio cues. Mutable module-level
state (the audio-buffer cache and the debounce flag canPlay) is made
explicit: every operation takes the current state and returns the new one.
External collaborators (the network fetch, the platform audio decoder, and
the drive file-metadata lookup used by other parts of the application) are
modelled as an explicit environment of oracles. Volumes, gains and pan
values are rationals; times are natural numbers of milliseconds.
-/

namespace MisskeySound

/-- The tagged sound descriptor: the TS value null, the string literal
for a drive file, or a preinstalled catalog identifier. -/
inductive SoundType where
  | noSound
  | driveFile
  | bundled (name : String)
  deriving DecidableEq

/-- The six application event categories of operationTypes. -/
inductive OperationType where
  | noteMy
  | note
  | antenna
  | channel
  | notification
  | reaction
  deriving DecidableEq

/-- A sound setting as stored per event category: the descriptor type, the
drive file id and stored url, and the per-descriptor volume. An absent or
empty url is modelled by the empty string, matching the TS falsy check. -/
structure SoundStore where
  type : SoundType
  fileId : String
  fileUrl : String
  volume : ℚ
  deriving DecidableEq

/-- Page visibility as reported by document.visibilityState. -/
inductive Visibility where
  | visible
  | hidden
  deriving DecidableEq

/-- The slice of the global settings store this module reads, together
with the page visibility; soundBinding models the per-category lookup
of the sound setting. -/
structure StoreState where
  sound_masterVolume : ℚ
  sound_notUseSound : Bool
  sound_useSoundOnlyWhenActive : Bool
  visibilityState : Visibility
  soundBinding : OperationType → SoundStore

/-- An opaque decoded audio buffer; the id distinguishes buffer objects so
that object identity can be stated. -/
structure AudioBuffer where
  id : ℕ
  deriving DecidableEq

/-- Opaque raw bytes returned by a successful fetch. -/
abbrev Bytes := ℕ

/-- Opaque decode-failure value carried by a rejected decode. -/
abbrev DecodeError := ℕ

/-- The external world: fetch returns none when the network request
throws; decodeAudioData either rejects or yields a buffer; driveFilesShow
is the external file-metadata lookup that maps a file id to a current url
(available to the application, whether or not this module consults it). -/
structure Env where
  fetch : String → Option Bytes
  decodeAudioData : Bytes → Except DecodeError AudioBuffer
  driveFilesShow : String → Option String

/-- The in-memory buffer cache, keyed by url, newest entry first. -/
abbrev Cache := List (String × AudioBuffer)

/-- Lookup in the cache, mirroring Map.get / Map.has. -/
def cacheGet (c : Cache) (k : String) : Option AudioBuffer :=
  match c with
  | [] => Option.none
  | (k2, v) :: rest => if k2 = k then Option.some v else cacheGet rest k

/-- Insertion into the cache, mirroring Map.set. -/
def cacheSet (c : Cache) (k : String) (v : AudioBuffer) : Cache :=
  (k, v) :: c

/-- Result of one loadAudio call: the settled value (a rejected decode is
Except.error, a missing buffer is Except.ok none), the cache afterwards,
and counters for the effects performed: network fetches, decode attempts,
and fallback metadata lookups by file id. -/
structure LoadResult where
  result : Except DecodeError (Option AudioBuffer)
  cache : Cache
  fetchCount : ℕ
  decodeCount : ℕ
  lookupCount : ℕ

/-- Embedding of loadAudio(url, options). With useCache (the TS default)
a cache hit returns at once; otherwise the url is fetched, a thrown fetch
yields Except.ok none, the bytes are decoded (a decode failure
propagates), and with useCache the buffer is stored under the url. The
source never consults the drive file-metadata lookup, so lookupCount is
zero on every path. -/
def loadAudio (env : Env) (c : Cache) (url : String) (useCache : Bool) : LoadResult :=
  if useCache && (cacheGet c url).isSome then
    { result := Except.ok (cacheGet c url), cache := c,
      fetchCount := 0, decodeCount := 0, lookupCount := 0 }
  else
    match env.fetch url with
    | Option.none =>
        { result := Except.ok Option.none, cache := c,
          fetchCount := 1, decodeCount := 0, lookupCount := 0 }
    | Option.some bytes =>
        match env.decodeAudioData bytes with
        | Except.error e =>
            { result := Except.error e, cache := c,
              fetchCount := 1, decodeCount := 1, lookupCount := 0 }
        | Except.ok buf =>
            { result := Except.ok (Option.some buf),
              cache := if useCache then cacheSet c url buf else c,
              fetchCount := 1, decodeCount := 1, lookupCount := 0 }

/-- The kinds of nodes of the playback graph. -/
inductive NodeKind where
  | bufferSource
  | stereoPanner
  | gain
  | destination
  deriving DecidableEq

/-- The options record of createSourceNode; absent fields are none. -/
structure SourceOpts where
  volume : Option ℚ
  pan : Option ℚ
  playbackRate : Option ℚ
  deriving DecidableEq

/-- The per-playback graph built by createSourceNode: the bound buffer,
the values assigned to the pan, gain and playbackRate parameters, and the
connection chain from the source to the shared destination. -/
structure SourceGraph where
  buffer : AudioBuffer
  panValue : ℚ
  gainValue : ℚ
  playbackRateValue : ℚ
  chain : List NodeKind
  deriving DecidableEq

/-- Embedding of createSourceNode(buffer, opts): the source always
connects through the stereo panner, then the gain node, then the shared
destination; pan defaults to 0, volume to 1, playbackRate to 1. -/
def createSourceNode (buffer : AudioBuffer) (opts : SourceOpts) : SourceGraph :=
  { buffer := buffer
    panValue := opts.pan.getD 0
    gainValue := opts.volume.getD 1
    playbackRateValue := opts.playbackRate.getD 1
    chain := [NodeKind.bufferSource, NodeKind.stereoPanner,
              NodeKind.gain, NodeKind.destination] }

/-- Embedding of isMute(): global do-not-play flag, or the
only-when-active flag while the page is hidden. -/
def isMute (s : StoreState) : Bool :=
  if s.sound_notUseSound then true
  else if s.sound_useSoundOnlyWhenActive && decide (s.visibilityState = Visibility.hidden) then true
  else false

/-- The url playMisskeySfxFile resolves for a playable descriptor. -/
def soundUrl (ss : SoundStore) : String :=
  match ss.type with
  | SoundType.driveFile => ss.fileUrl
  | SoundType.bundled name => "/client-assets/sounds/" ++ name ++ ".mp3"
  | SoundType.noSound => ""

/-- How one playMisskeySfxFile call ended when it did not reject:
an early return before loading, a load that produced no buffer, or a
started playback graph. -/
inductive PlayOutcome where
  | noop
  | noBuffer
  | started (g : SourceGraph)
  deriving DecidableEq

/-- Result of one playMisskeySfxFile call: the settled outcome (a
propagated decode rejection is Except.error), the cache afterwards,
whether loadAudio was invoked at all, and the effect counters. -/
structure PlayResult where
  outcome : Except DecodeError PlayOutcome
  cache : Cache
  loadInvoked : Bool
  fetchCount : ℕ
  lookupCount : ℕ

/-- Embedding of playMisskeySfxFile(soundStore): early return on a null
type, a drive file without url, mute, zero master volume or zero
descriptor volume; otherwise load the resolved url with the cache
enabled, give up silently on a missing buffer, and otherwise start a
source node whose gain option is volume times master volume. -/
def playMisskeySfxFile (store : StoreState) (env : Env) (c : Cache) (ss : SoundStore) : PlayResult :=
  if ss.type = SoundType.noSound ∨ (ss.type = SoundType.driveFile ∧ ss.fileUrl = "") then
    { outcome := Except.ok PlayOutcome.noop, cache := c,
      loadInvoked := false, fetchCount := 0, lookupCount := 0 }
  else
    let masterVolume := store.sound_masterVolume
    if isMute store = true ∨ masterVolume = 0 ∨ ss.volume = 0 then
      { outcome := Except.ok PlayOutcome.noop, cache := c,
        loadInvoked := false, fetchCount := 0, lookupCount := 0 }
    else
      let r := loadAudio env c (soundUrl ss) true
      match r.result with
      | Except.error e =>
          { outcome := Except.error e, cache := r.cache,
            loadInvoked := true, fetchCount := r.fetchCount, lookupCount := r.lookupCount }
      | Except.ok Option.none =>
          { outcome := Except.ok PlayOutcome.noBuffer, cache := r.cache,
            loadInvoked := true, fetchCount := r.fetchCount, lookupCount := r.lookupCount }
      | Except.ok (Option.some buffer) =>
          let volume := ss.volume * masterVolume
          { outcome := Except.ok (PlayOutcome.started (createSourceNode buffer
              { volume := Option.some volume, pan := Option.none, playbackRate := Option.none })),
            cache := r.cache,
            loadInvoked := true, fetchCount := r.fetchCount, lookupCount := r.lookupCount }

/-- The debounce state of playMisskeySfx: the module-level canPlay flag,
and the time at which the pending setTimeout will set it back to true
(none when no reset is pending). -/
structure SfxState where
  canPlay : Bool
  releaseAt : Option ℕ
  deriving DecidableEq

/-- Fire a due pending reset: at any time at or past the scheduled
release, the timeout has run and canPlay is true again. -/
def applyRelease (s : SfxState) (t : ℕ) : SfxState :=
  match s.releaseAt with
  | Option.some r => if r ≤ t then { canPlay := true, releaseAt := Option.none } else s
  | Option.none => s

/-- One playMisskeySfx call as an event on the timeline: when it fires,
for which event category, how long until the playback promise settles,
and the autoplay-gate observations of the navigator. -/
structure SfxEvent where
  time : ℕ
  category : OperationType
  settleDelay : ℕ
  hasUserActivationApi : Bool
  hasBeenActive : Bool

/-- Result of one playMisskeySfx call: the debounce state and cache
afterwards, whether the guard passed (the lock was acquired and
playMisskeySfxFile invoked), and whether a source actually started. -/
structure SfxCallResult where
  state : SfxState
  cache : Cache
  attempted : Bool
  started : Bool

/-- The early-return guard of playMisskeySfx: the bound descriptor type
is null, or canPlay is false after any due reset has fired, or the
user-activation gate blocks playback. -/
def sfxGuard (store : StoreState) (s0 : SfxState) (e : SfxEvent) : Prop :=
  (store.soundBinding e.category).type = SoundType.noSound ∨
  (applyRelease s0 e.time).canPlay = false ∨
  (e.hasUserActivationApi = true ∧ e.hasBeenActive = false)

instance (store : StoreState) (s0 : SfxState) (e : SfxEvent) :
    Decidable (sfxGuard store s0 e) := by
  unfold sfxGuard
  exact inferInstance

/-- Embedding of playMisskeySfx(operationType). Any due canPlay reset
fires first; the call returns early when the guard holds. Otherwise
canPlay is cleared, the bound sound is played, and whatever way the
playback promise settles, the finally handler schedules the reset of
canPlay 25 ms after settlement. -/
def playMisskeySfx (store : StoreState) (env : Env) (c : Cache) (s0 : SfxState) (e : SfxEvent) : SfxCallResult :=
  if sfxGuard store s0 e then
    { state := applyRelease s0 e.time, cache := c, attempted := false, started := false }
  else
    { state := { canPlay := false, releaseAt := Option.some (e.time + e.settleDelay + 25) },
      cache := (playMisskeySfxFile store env c (store.soundBinding e.category)).cache,
      attempted := true,
      started :=
        match (playMisskeySfxFile store env c (store.soundBinding e.category)).outcome with
        | Except.ok (PlayOutcome.started _) => true
        | _ => false }

/-! Concrete fixtures used by witnesses and counterexamples. -/

/-- An environment where the stored drive-file url fails to fetch while
the external file-metadata lookup would supply a working replacement url
whose bytes decode fine. -/
def envFallback : Env :=
  { fetch := fun url =>
      if url = "https://drive.example/new" then Option.some 7 else Option.none
    decodeAudioData := fun b => Except.ok ⟨b⟩
    driveFilesShow := fun fid =>
      if fid = "f1" then Option.some "https://drive.example/new" else Option.none }

/-- An environment where the bundled asset of the catalog entry a is
fetchable and decodes to the buffer with id 3. -/
def envOk : Env :=
  { fetch := fun url =>
      if url = "/client-assets/sounds/a.mp3" then Option.some 3 else Option.none
    decodeAudioData := fun b => Except.ok ⟨b⟩
    driveFilesShow := fun _ => Option.none }

/-- An environment where the stored clip url fetches but its bytes fail
to decode. -/
def envErr : Env :=
  { fetch := fun url =>
      if url = "https://bad.example/clip" then Option.some 9 else Option.none
    decodeAudioData := fun _ => Except.error 5
    driveFilesShow := fun _ => Option.none }

/-- A playable bundled descriptor at full volume. -/
def ssBundled : SoundStore :=
  { type := SoundType.bundled "a", fileId := "", fileUrl := "", volume := 1 }

/-- The null descriptor. -/
def ssNoSound : SoundStore :=
  { type := SoundType.noSound, fileId := "", fileUrl := "", volume := 1 }

/-- A bundled descriptor at half volume. -/
def ssHalf : SoundStore :=
  { type := SoundType.bundled "a", fileId := "", fileUrl := "", volume := 1/2 }

/-- A drive-file descriptor whose stored url is the failing clip url. -/
def ssErr : SoundStore :=
  { type := SoundType.driveFile, fileId := "f1",
    fileUrl := "https://bad.example/clip", volume := 1 }

/-- A store with nothing muted, master volume 1, every category bound to
the full-volume bundled descriptor, page visible. -/
def storeW : StoreState :=
  { sound_masterVolume := 1, sound_notUseSound := false,
    sound_useSoundOnlyWhenActive := false, visibilityState := Visibility.visible,
    soundBinding := fun _ => ssBundled }

/-- A store with master volume one half and the half-volume descriptor. -/
def storeHalf : StoreState :=
  { sound_masterVolume := 1/2, sound_notUseSound := false,
    sound_useSoundOnlyWhenActive := false, visibilityState := Visibility.visible,
    soundBinding := fun _ => ssHalf }

/-- A store bound to the descriptor whose bytes fail to decode. -/
def storeErr : StoreState :=
  { sound_masterVolume := 1, sound_notUseSound := false,
    sound_useSoundOnlyWhenActive := false, visibilityState := Visibility.visible,
    soundBinding := fun _ => ssErr }

/-- A store with the only-when-active flag set while the page is hidden. -/
def storeHidden : StoreState :=
  { sound_masterVolume := 1, sound_notUseSound := false,
    sound_useSoundOnlyWhenActive := true, visibilityState := Visibility.hidden,
    soundBinding := fun _ => ssBundled }

/-- The unlocked debounce state with no pending reset. -/
def sfx0 : SfxState := { canPlay := true, releaseAt := Option.none }

/-- A first event call at time 0 settling immediately, activation ok. -/
def eW1 : SfxEvent :=
  { time := 0, category := OperationType.note, settleDelay := 0,
    hasUserActivationApi := false, hasBeenActive := true }

/-- A second event call 10 ms later, a different category. -/
def eW2 : SfxEvent :=
  { time := 10, category := OperationType.notification, settleDelay := 0,
    hasUserActivationApi := false, hasBeenActive := true }

/-- A third event call at 100 ms, well past the cooldown. -/
def eW3 : SfxEvent :=
  { time := 100, category := OperationType.reaction, settleDelay := 0,
    hasUserActivationApi := false, hasBeenActive := true }

end MisskeySound

namespace MisskeySound

/-- Claim C4: loading with useCache false never reads the cache (its
settled value does not depend on the cache contents and the fetch is
performed unconditionally) and never writes it (the cache mapping after
the call is exactly the cache before it). -/
theorem loadAudio_no_cache_frame (env : Env) (c : Cache) (url : String) :
    (loadAudio env c url false).cache = c ∧
    (loadAudio env c url false).fetchCount = 1 ∧
    (loadAudio env c url false).result = (loadAudio env [] url false).result := by
  cases hf : env.fetch url with
  | none => simp [loadAudio, hf]
  | some b =>
    cases hd : env.decodeAudioData b with
    | error e => simp [loadAudio, hf, hd]
    | ok buf => simp [loadAudio, hf, hd]

/-- Claim C3: with caching enabled and a cache miss, the first loadAudio
call fetches and decodes once and stores the decoded buffer under the
url; the second call on the resulting cache performs no fetch and no
decode and returns exactly the buffer the first call cached. -/
theorem loadAudio_cache_second_call (env : Env) (c : Cache) (url : String)
    (b : Bytes) (buf : AudioBuffer)
    (hmiss : cacheGet c url = Option.none)
    (hf : env.fetch url = Option.some b)
    (hd : env.decodeAudioData b = Except.ok buf) :
    (loadAudio env c url true).result = Except.ok (Option.some buf) ∧
    (loadAudio env c url true).fetchCount = 1 ∧
    (loadAudio env c url true).decodeCount = 1 ∧
    cacheGet (loadAudio env c url true).cache url = Option.some buf ∧
    (loadAudio env (loadAudio env c url true).cache url true).result =
      Except.ok (Option.some buf) ∧
    (loadAudio env (loadAudio env c url true).cache url true).fetchCount = 0 ∧
    (loadAudio env (loadAudio env c url true).cache url true).decodeCount = 0 ∧
    (loadAudio env (loadAudio env c url true).cache url true).cache =
      (loadAudio env c url true).cache := by
  have h1 : loadAudio env c url true =
      { result := Except.ok (Option.some buf), cache := cacheSet c url buf,
        fetchCount := 1, decodeCount := 1, lookupCount := 0 } := by
    simp [loadAudio, hmiss, hf, hd]
  have hget : cacheGet (cacheSet c url buf) url = Option.some buf := by
    simp [cacheGet, cacheSet]
  have h2 : loadAudio env (cacheSet c url buf) url true =
      { result := Except.ok (Option.some buf), cache := cacheSet c url buf,
        fetchCount := 0, decodeCount := 0, lookupCount := 0 } := by
    simp [loadAudio, hget]
  rw [h1]
  simp [h2, hget]

/-- Witness for claim C3 at the concrete bundled-sound environment. -/
theorem loadAudio_cache_second_call_witness :
    (loadAudio envOk (loadAudio envOk [] "/client-assets/sounds/a.mp3" true).cache
        "/client-assets/sounds/a.mp3" true).result = Except.ok (Option.some ⟨3⟩) :=
  (loadAudio_cache_second_call envOk [] "/client-assets/sounds/a.mp3" 3 ⟨3⟩
    rfl rfl rfl).2.2.2.2.1

/-- Claim C8: on a cache miss, a thrown fetch makes loadAudio settle with
no buffer and no error and leaves the cache unchanged, while a fetched
byte stream whose decode rejects makes the whole call reject with that
decode failure. -/
theorem loadAudio_failure_modes (env : Env) (c : Cache) (url : String) (useCache : Bool)
    (b : Bytes) (e : DecodeError)
    (hmiss : cacheGet c url = Option.none) :
    (env.fetch url = Option.none →
      (loadAudio env c url useCache).result = Except.ok Option.none ∧
      (loadAudio env c url useCache).cache = c) ∧
    (env.fetch url = Option.some b → env.decodeAudioData b = Except.error e →
      (loadAudio env c url useCache).result = Except.error e ∧
      (loadAudio env c url useCache).cache = c) := by
  constructor
  · intro hf
    simp [loadAudio, hmiss, hf]
  · intro hf hd
    simp [loadAudio, hmiss, hf, hd]

/-- Witness for claim C8: the failing-decode clip makes the call reject
with the decode failure. -/
theorem loadAudio_failure_modes_witness :
    (loadAudio envErr [] "https://bad.example/clip" true).result = Except.error 5 :=
  ((loadAudio_failure_modes envErr [] "https://bad.example/clip" true 9 5 rfl).2
    rfl rfl).1

/-- Claim C1 counterexample: at a drive-file url whose fetch fails, even
though the external metadata lookup of the environment would supply a
working replacement url, loadAudio performs no fallback lookup at all and
returns nothing, refuting the claimed single fallback re-resolution and
successful retry. -/
theorem loadAudio_fallback_counterexample :
    ¬ ((loadAudio envFallback [] "https://drive.example/old" true).lookupCount = 1 ∧
       (loadAudio envFallback [] "https://drive.example/old" true).result =
         Except.ok (Option.some ⟨7⟩)) := by
  intro h
  have h0 : (loadAudio envFallback [] "https://drive.example/old" true).lookupCount = 0 := rfl
  have h1 := h.1
  rw [h0] at h1
  exact absurd h1 (by decide)

/-- Claim C1 amended: on a cache miss whose fetch fails, loadAudio
returns nothing immediately after the single failed fetch, performing no
fallback re-resolution and no retry; its behaviour does not depend on the
file-metadata lookup of the environment at all, and the cache is left
unchanged. -/
theorem loadAudio_fetch_failure_no_fallback (env : Env) (c : Cache) (url : String)
    (useCache : Bool)
    (hmiss : cacheGet c url = Option.none)
    (hf : env.fetch url = Option.none) :
    (loadAudio env c url useCache).result = Except.ok Option.none ∧
    (loadAudio env c url useCache).fetchCount = 1 ∧
    (loadAudio env c url useCache).lookupCount = 0 ∧
    (loadAudio env c url useCache).cache = c ∧
    (∀ lookup2 : String → Option String,
      loadAudio { env with driveFilesShow := lookup2 } c url useCache =
        loadAudio env c url useCache) := by
  refine ⟨?_, ?_, ?_, ?_, fun lookup2 => ?_⟩
  · simp [loadAudio, hmiss, hf]
  · simp [loadAudio, hmiss, hf]
  · simp [loadAudio, hmiss, hf]
  · simp [loadAudio, hmiss, hf]
  · cases env
    rfl

/-- Witness for the amended claim C1 at the concrete fallback fixture. -/
theorem loadAudio_fetch_failure_no_fallback_witness :
    (loadAudio envFallback [] "https://drive.example/old" true).result =
      Except.ok Option.none :=
  (loadAudio_fetch_failure_no_fallback envFallback [] "https://drive.example/old" true
    rfl rfl).1

/-- Claim C7: isMute returns true exactly when the global do-not-play
setting is set, or the only-when-visible setting is set while the page is
hidden; and its value is a function of just those three freshly read
inputs, with no cached result. -/
theorem isMute_spec :
    (∀ s : StoreState,
      (isMute s = true ↔
        (s.sound_notUseSound = true ∨
         (s.sound_useSoundOnlyWhenActive = true ∧
          s.visibilityState = Visibility.hidden)))) ∧
    (∀ s1 s2 : StoreState,
      s1.sound_notUseSound = s2.sound_notUseSound →
      s1.sound_useSoundOnlyWhenActive = s2.sound_useSoundOnlyWhenActive →
      s1.visibilityState = s2.visibilityState →
      isMute s1 = isMute s2) := by
  constructor
  · intro s
    by_cases h1 : s.sound_notUseSound = true <;>
      by_cases h2 : s.sound_useSoundOnlyWhenActive = true <;>
        cases hv : s.visibilityState <;>
          simp [isMute, h1, h2, hv, Bool.not_eq_true]
  · intro s1 s2 h1 h2 h3
    unfold isMute
    rw [h1, h2, h3]

/-- Witness for claim C7: the hidden page with the only-when-visible
setting is muted. -/
theorem isMute_spec_witness : isMute storeHidden = true :=
  (isMute_spec.1 storeHidden).mpr (Or.inr ⟨rfl, rfl⟩)

/-- Claim C9 counterexample: even when no pan control is requested, the
built graph still routes through the stereo-pan node, refuting the claim
that the source then connects to the gain stage without one. -/
theorem createSourceNode_pan_counterexample :
    NodeKind.stereoPanner ∈ (createSourceNode ⟨0⟩
      { volume := Option.some 1, pan := Option.none,
        playbackRate := Option.none }).chain := by
  simp [createSourceNode]

/-- Claim C9 amended: the graph builder always routes the source through
the stereo-pan node and then the gain node before the shared destination,
whether or not pan control is requested; omitted options default to
pan = 0, volume = 1 and playbackRate = 1, and supplied options are applied
verbatim. -/
theorem createSourceNode_graph_spec (buffer : AudioBuffer) (opts : SourceOpts) :
    (createSourceNode buffer opts).chain =
      [NodeKind.bufferSource, NodeKind.stereoPanner,
       NodeKind.gain, NodeKind.destination] ∧
    (createSourceNode buffer opts).buffer = buffer ∧
    (opts.pan = Option.none → (createSourceNode buffer opts).panValue = 0) ∧
    (∀ p : ℚ, opts.pan = Option.some p → (createSourceNode buffer opts).panValue = p) ∧
    (opts.volume = Option.none → (createSourceNode buffer opts).gainValue = 1) ∧
    (∀ v : ℚ, opts.volume = Option.some v → (createSourceNode buffer opts).gainValue = v) ∧
    (opts.playbackRate = Option.none →
      (createSourceNode buffer opts).playbackRateValue = 1) ∧
    (∀ r : ℚ, opts.playbackRate = Option.some r →
      (createSourceNode buffer opts).playbackRateValue = r) := by
  refine ⟨rfl, rfl, ?_, ?_, ?_, ?_, ?_, ?_⟩
  · intro h; simp [createSourceNode, h]
  · intro p h; simp [createSourceNode, h]
  · intro h; simp [createSourceNode, h]
  · intro v h; simp [createSourceNode, h]
  · intro h; simp [createSourceNode, h]
  · intro r h; simp [createSourceNode, h]

/-- Witness for the amended claim C9: with every option omitted the gain
defaults to 1. -/
theorem createSourceNode_graph_spec_witness :
    (createSourceNode ⟨0⟩
      { volume := Option.none, pan := Option.none,
        playbackRate := Option.none }).gainValue = 1 :=
  (createSourceNode_graph_spec ⟨0⟩
    { volume := Option.none, pan := Option.none,
      playbackRate := Option.none }).2.2.2.2.1 rfl

/-- Claim C2: playMisskeySfxFile settles as a no-op with no fetch, no
load and an unchanged cache exactly when the descriptor type is null, or
it is a drive file with an empty url, or the mute policy holds, or the
master volume is 0, or the descriptor volume is 0; in every other case it
invokes the loader. -/
theorem playMisskeySfxFile_noop_iff (store : StoreState) (env : Env) (c : Cache)
    (ss : SoundStore) :
    (((playMisskeySfxFile store env c ss).outcome = Except.ok PlayOutcome.noop ∧
      (playMisskeySfxFile store env c ss).loadInvoked = false ∧
      (playMisskeySfxFile store env c ss).fetchCount = 0 ∧
      (playMisskeySfxFile store env c ss).cache = c) ↔
     (ss.type = SoundType.noSound ∨ (ss.type = SoundType.driveFile ∧ ss.fileUrl = "") ∨
      isMute store = true ∨ store.sound_masterVolume = 0 ∨ ss.volume = 0)) ∧
    (¬ (ss.type = SoundType.noSound ∨ (ss.type = SoundType.driveFile ∧ ss.fileUrl = "") ∨
        isMute store = true ∨ store.sound_masterVolume = 0 ∨ ss.volume = 0) →
      (playMisskeySfxFile store env c ss).loadInvoked = true) := by
  by_cases hA : ss.type = SoundType.noSound ∨ (ss.type = SoundType.driveFile ∧ ss.fileUrl = "")
  · have hres : playMisskeySfxFile store env c ss =
        { outcome := Except.ok PlayOutcome.noop, cache := c,
          loadInvoked := false, fetchCount := 0, lookupCount := 0 } := by
      simp [playMisskeySfxFile, hA]
    rw [hres]
    constructor
    · simp
      tauto
    · intro hn
      exact absurd (Or.elim hA (fun h => Or.inl h) (fun h => Or.inr (Or.inl h))) hn
  · by_cases hB : isMute store = true ∨ store.sound_masterVolume = 0 ∨ ss.volume = 0
    · have hres : playMisskeySfxFile store env c ss =
          { outcome := Except.ok PlayOutcome.noop, cache := c,
            loadInvoked := false, fetchCount := 0, lookupCount := 0 } := by
        simp [playMisskeySfxFile, hA, hB]
      rw [hres]
      constructor
      · simp
        tauto
      · intro hn
        exact absurd (Or.elim hB (fun h => Or.inr (Or.inr (Or.inl h)))
          (fun h => Or.elim h (fun h1 => Or.inr (Or.inr (Or.inr (Or.inl h1))))
            (fun h2 => Or.inr (Or.inr (Or.inr (Or.inr h2)))))) hn
    · have hload : (playMisskeySfxFile store env c ss).loadInvoked = true := by
        simp only [playMisskeySfxFile, hA, hB, if_false]
        cases hr : (loadAudio env c (soundUrl ss) true).result with
        | error e => simp [hr]
        | ok ob =>
          cases ob with
          | none => simp [hr]
          | some buf => simp [hr]
      constructor
      · constructor
        · intro hL
          rw [hload] at hL
          exact absurd hL.2.1 (by simp)
        · intro hR
          exact absurd hR (by tauto)
      · intro _
        exact hload

/-- Witness for claim C2: the null descriptor is a no-op. -/
theorem playMisskeySfxFile_noop_iff_witness :
    (playMisskeySfxFile storeW envOk [] ssNoSound).outcome =
      Except.ok PlayOutcome.noop :=
  ((playMisskeySfxFile_noop_iff storeW envOk [] ssNoSound).1.mpr (Or.inl rfl)).1

/-- Claim C5: whenever playMisskeySfxFile actually starts playback, the
gain value of the started graph is exactly the descriptor volume times
the master volume, for volumes in the unit interval. -/
theorem playMisskeySfxFile_gain (store : StoreState) (env : Env) (c : Cache)
    (ss : SoundStore) (g : SourceGraph)
    (hv0 : 0 ≤ ss.volume) (hv1 : ss.volume ≤ 1)
    (hm0 : 0 ≤ store.sound_masterVolume) (hm1 : store.sound_masterVolume ≤ 1)
    (hstart : (playMisskeySfxFile store env c ss).outcome =
      Except.ok (PlayOutcome.started g)) :
    g.gainValue = ss.volume * store.sound_masterVolume := by
  by_cases hA : ss.type = SoundType.noSound ∨ (ss.type = SoundType.driveFile ∧ ss.fileUrl = "")
  · simp [playMisskeySfxFile, hA] at hstart
  · by_cases hB : isMute store = true ∨ store.sound_masterVolume = 0 ∨ ss.volume = 0
    · simp [playMisskeySfxFile, hA, hB] at hstart
    · simp only [playMisskeySfxFile, hA, hB, if_false] at hstart
      cases hr : (loadAudio env c (soundUrl ss) true).result with
      | error e => rw [hr] at hstart; simp at hstart
      | ok ob =>
        cases ob with
        | none => rw [hr] at hstart; simp at hstart
        | some buf =>
          rw [hr] at hstart
          simp at hstart
          rw [← hstart]
          simp [createSourceNode]

/-- Witness for claim C5: half descriptor volume and half master volume
give a started gain of exactly their product. -/
theorem playMisskeySfxFile_gain_witness :
    (playMisskeySfxFile storeHalf envOk [] ssHalf).outcome =
      Except.ok (PlayOutcome.started (createSourceNode ⟨3⟩
        { volume := Option.some (ssHalf.volume * storeHalf.sound_masterVolume),
          pan := Option.none, playbackRate := Option.none })) ∧
    (createSourceNode ⟨3⟩
      { volume := Option.some (ssHalf.volume * storeHalf.sound_masterVolume),
        pan := Option.none, playbackRate := Option.none }).gainValue =
      ssHalf.volume * storeHalf.sound_masterVolume := by
  have hstart : (playMisskeySfxFile storeHalf envOk [] ssHalf).outcome =
      Except.ok (PlayOutcome.started (createSourceNode ⟨3⟩
        { volume := Option.some (ssHalf.volume * storeHalf.sound_masterVolume),
          pan := Option.none, playbackRate := Option.none })) := by
    norm_num [playMisskeySfxFile, ssHalf, storeHalf, isMute, soundUrl,
      loadAudio, envOk, cacheGet]
    rfl
  refine ⟨hstart, ?_⟩
  have := playMisskeySfxFile_gain storeHalf envOk [] ssHalf
    (createSourceNode ⟨3⟩
      { volume := Option.some (ssHalf.volume * storeHalf.sound_masterVolume),
        pan := Option.none, playbackRate := Option.none })
    (by norm_num [ssHalf]) (by norm_num [ssHalf])
    (by norm_num [storeHalf]) (by norm_num [storeHalf]) hstart
  exact this

/-- Helper: when the guard holds, playMisskeySfx only fires a due reset
and returns without attempting playback. -/
theorem playMisskeySfx_guard_true (store : StoreState) (env : Env) (c : Cache)
    (s0 : SfxState) (e : SfxEvent) (hg : sfxGuard store s0 e) :
    playMisskeySfx store env c s0 e =
      { state := applyRelease s0 e.time, cache := c,
        attempted := false, started := false } := by
  simp [playMisskeySfx, hg]

/-- Helper: when the guard fails, the call acquires the lock and
schedules its reset 25 ms after the playback settles. -/
theorem playMisskeySfx_guard_false (store : StoreState) (env : Env) (c : Cache)
    (s0 : SfxState) (e : SfxEvent) (hg : ¬ sfxGuard store s0 e) :
    (playMisskeySfx store env c s0 e).attempted = true ∧
    (playMisskeySfx store env c s0 e).state =
      { canPlay := false, releaseAt := Option.some (e.time + e.settleDelay + 25) } := by
  simp [playMisskeySfx, hg]

/-- Helper: a call that started playback passed the guard. -/
theorem playMisskeySfx_started_attempted (store : StoreState) (env : Env) (c : Cache)
    (s0 : SfxState) (e : SfxEvent)
    (h : (playMisskeySfx store env c s0 e).started = true) :
    (playMisskeySfx store env c s0 e).attempted = true := by
  by_cases hg : sfxGuard store s0 e
  · rw [playMisskeySfx_guard_true store env c s0 e hg] at h
    exact absurd h (by simp)
  · exact (playMisskeySfx_guard_false store env c s0 e hg).1

/-- Helper: the state after an attempting call is locked with the reset
scheduled at settle time plus 25 ms. -/
theorem playMisskeySfx_attempted_state (store : StoreState) (env : Env) (c : Cache)
    (s0 : SfxState) (e : SfxEvent)
    (h : (playMisskeySfx store env c s0 e).attempted = true) :
    (playMisskeySfx store env c s0 e).state =
      { canPlay := false, releaseAt := Option.some (e.time + e.settleDelay + 25) } := by
  by_cases hg : sfxGuard store s0 e
  · rw [playMisskeySfx_guard_true store env c s0 e hg] at h
    exact absurd h (by simp)
  · exact (playMisskeySfx_guard_false store env c s0 e hg).2

/-- Helper: a pending reset that is not yet due leaves the state alone. -/
theorem applyRelease_not_due (b : Bool) (r t : ℕ) (h : ¬ r ≤ t) :
    applyRelease { canPlay := b, releaseAt := Option.some r } t =
      { canPlay := b, releaseAt := Option.some r } := by
  simp [applyRelease, h]

/-- Helper: a due pending reset makes canPlay true again. -/
theorem applyRelease_due (b : Bool) (r t : ℕ) (h : r ≤ t) :
    applyRelease { canPlay := b, releaseAt := Option.some r } t =
      { canPlay := true, releaseAt := Option.none } := by
  simp [applyRelease, h]

/-- Claim C6: the debounce lock is one process-wide boolean: of two
playMisskeySfx calls fired within 25 ms of each other, whatever their
event categories, at most one starts playback, and a playable call fired
at or after the scheduled release time of a previous attempting call
passes the guard and proceeds. -/
theorem playMisskeySfx_debounce (store : StoreState) (env : Env) (c c2 : Cache)
    (s : SfxState) (e1 e2 e3 : SfxEvent)
    (h12 : e1.time ≤ e2.time) (h25 : e2.time < e1.time + 25) :
    (¬ ((playMisskeySfx store env c s e1).started = true ∧
        (playMisskeySfx store env (playMisskeySfx store env c s e1).cache
          (playMisskeySfx store env c s e1).state e2).started = true)) ∧
    ((playMisskeySfx store env c s e1).attempted = true →
      e1.time + e1.settleDelay + 25 ≤ e3.time →
      (store.soundBinding e3.category).type ≠ SoundType.noSound →
      ¬ (e3.hasUserActivationApi = true ∧ e3.hasBeenActive = false) →
      (playMisskeySfx store env c2 (playMisskeySfx store env c s e1).state e3).attempted = true) := by
  constructor
  · rintro ⟨h1, h2⟩
    have ha1 := playMisskeySfx_started_attempted store env c s e1 h1
    have hst := playMisskeySfx_attempted_state store env c s e1 ha1
    rw [hst] at h2
    have hguard2 : sfxGuard store
        ({ canPlay := false,
           releaseAt := Option.some (e1.time + e1.settleDelay + 25) } : SfxState) e2 := by
      right; left
      rw [applyRelease_not_due false (e1.time + e1.settleDelay + 25) e2.time (by omega)]
    rw [playMisskeySfx_guard_true store env (playMisskeySfx store env c s e1).cache
      _ e2 hguard2] at h2
    exact absurd h2 (by simp)
  · intro ha1 ht hn hu
    have hst := playMisskeySfx_attempted_state store env c s e1 ha1
    rw [hst]
    have hguard3 : ¬ sfxGuard store
        ({ canPlay := false,
           releaseAt := Option.some (e1.time + e1.settleDelay + 25) } : SfxState) e3 := by
      intro hg
      rcases hg with hg | hg | hg
      · exact hn hg
      · rw [applyRelease_due false _ _ ht] at hg
        simp at hg
      · exact hu hg
    exact (playMisskeySfx_guard_false store env c2 _ e3 hguard3).1

/-- Witness for claim C6: with every category bound to a playable
bundled sound, the call at 0 ms starts playback, the call at 10 ms is
blocked, and the call at 100 ms passes the guard again. -/
theorem playMisskeySfx_debounce_witness :
    (playMisskeySfx storeW envOk [] sfx0 eW1).started = true ∧
    (¬ ((playMisskeySfx storeW envOk [] sfx0 eW1).started = true ∧
        (playMisskeySfx storeW envOk (playMisskeySfx storeW envOk [] sfx0 eW1).cache
          (playMisskeySfx storeW envOk [] sfx0 eW1).state eW2).started = true)) ∧
    (playMisskeySfx storeW envOk [] (playMisskeySfx storeW envOk [] sfx0 eW1).state eW3).attempted = true := by
  refine ⟨rfl,
    (playMisskeySfx_debounce storeW envOk [] [] sfx0 eW1 eW2 eW3
      (by decide) (by decide)).1,
    (playMisskeySfx_debounce storeW envOk [] [] sfx0 eW1 eW2 eW3
      (by decide) (by decide)).2 rfl (by decide) ?_ (by decide)⟩
  intro h
  cases h

/-- Claim C10: every playMisskeySfx call that acquires the lock, also
one whose playback rejects, leaves the state locked with the reset
scheduled exactly 25 ms after the playback promise settles, and at any
time from then on the fired reset makes canPlay true again; no settled
failure leaves event sounds permanently disabled. -/
theorem playMisskeySfx_lock_release (store : StoreState) (env : Env) (c : Cache)
    (s : SfxState) (e : SfxEvent) (t : ℕ)
    (ha : (playMisskeySfx store env c s e).attempted = true) :
    (playMisskeySfx store env c s e).state.canPlay = false ∧
    (playMisskeySfx store env c s e).state.releaseAt =
      Option.some (e.time + e.settleDelay + 25) ∧
    (e.time + e.settleDelay + 25 ≤ t →
      (applyRelease (playMisskeySfx store env c s e).state t).canPlay = true) := by
  have hst := playMisskeySfx_attempted_state store env c s e ha
  rw [hst]
  refine ⟨rfl, rfl, fun hle => ?_⟩
  rw [applyRelease_due false _ _ hle]

/-- Witness for claim C10: a run whose decode rejects (the playback
promise settles with a failure) still has its lock reset due at 25 ms. -/
theorem playMisskeySfx_lock_release_witness :
    (playMisskeySfx storeErr envErr [] sfx0 eW1).attempted = true ∧
    (playMisskeySfx storeErr envErr [] sfx0 eW1).started = false ∧
    (playMisskeySfxFile storeErr envErr [] ssErr).outcome = Except.error 5 ∧
    (applyRelease (playMisskeySfx storeErr envErr [] sfx0 eW1).state 25).canPlay = true := by
  have ha : (playMisskeySfx storeErr envErr [] sfx0 eW1).attempted = true := rfl
  exact ⟨ha, rfl, rfl,
    (playMisskeySfx_lock_release storeErr envErr [] sfx0 eW1 25 ha).2.2 (by decide)⟩

end MisskeySound
